import Mathlib

/-!
Verification development for the cave-daemon repository.

Part 1 embeds scripts/generate_openapi.py: a JSON value model mirroring the
Python dicts (insertion-ordered association lists), the example builders, and
the full OpenAPI document built by build_spec, transcribed field by field.

Part 2 embeds scripts/generate_sbom.py as an effect-explicit pure function.

Part 3 models, from the specification text, the key-management operations that
have no implementation in the repository (webhook sign/verify, key-store
revocation), and states the claimed properties over those models.
-/

namespace CaveDaemon

/-- JSON values as produced by the Python generator: objects keep the
insertion order of the source dicts, numbers are integers (the generator emits
no floats). -/
inductive Json where
  | null : Json
  | bool : Bool → Json
  | num : Int → Json
  | str : String → Json
  | arr : List Json → Json
  | obj : List (String × Json) → Json

namespace Json

/-- First-match lookup in an object field list (source dicts have unique keys). -/
def lookupKey : List (String × Json) → String → Option Json
  | [], _ => none
  | (k, v) :: rest, key => if k == key then some v else lookupKey rest key

/-- Member access `d[key]` on an object, `none` elsewhere. -/
def getKey : Json → String → Option Json
  | .obj fields, key => lookupKey fields key
  | _, _ => none

/-- Member access with `null` default. -/
def getKeyD (j : Json) (key : String) : Json := (j.getKey key).getD .null

/-- `key in d`. -/
def hasKey (j : Json) (key : String) : Bool := (j.getKey key).isSome

/-- The keys of an object in insertion order (`list(d.keys())`). -/
def keys : Json → List String
  | .obj fields => fields.map (·.1)
  | _ => []

/-- Python dict update semantics for a single key: replace in place when the
key exists (keeping its position), append otherwise. -/
def setKey : List (String × Json) → String → Json → List (String × Json)
  | [], k, v => [(k, v)]
  | (k0, v0) :: rest, k, v =>
      if k0 == k then (k0, v) :: rest else (k0, v0) :: setKey rest k v

/-- `{**d, key: v}` on objects; identity elsewhere. -/
def set (j : Json) (k : String) (v : Json) : Json :=
  match j with
  | .obj fields => .obj (setKey fields k v)
  | other => other

end Json

mutual

/-- Structural equality of JSON values. -/
def Json.beq : Json → Json → Bool
  | .null, .null => true
  | .bool a, .bool b => a == b
  | .num a, .num b => a == b
  | .str a, .str b => a == b
  | .arr a, .arr b => Json.beqList a b
  | .obj a, .obj b => Json.beqFields a b
  | _, _ => false

/-- Elementwise equality of JSON arrays. -/
def Json.beqList : List Json → List Json → Bool
  | [], [] => true
  | x :: xs, y :: ys => Json.beq x y && Json.beqList xs ys
  | _, _ => false

/-- Elementwise equality of JSON object fields. -/
def Json.beqFields : List (String × Json) → List (String × Json) → Bool
  | [], [] => true
  | (k1, v1) :: xs, (k2, v2) :: ys => k1 == k2 && Json.beq v1 v2 && Json.beqFields xs ys
  | _, _ => false

end

instance : BEq Json := ⟨Json.beq⟩

namespace OpenapiGen

/-- sandbox_response_example from scripts/generate_openapi.py. -/
def sandbox_response_example : Json :=
  .obj [
    ("id", .str "9f9c9872-2d9c-4c25-9c36-4e45be927834"),
    ("namespace", .str "demo"),
    ("name", .str "runner"),
    ("runtime", .str "process"),
    ("status", .str "created"),
    ("limits", .obj [
      ("cpu_millis", .num 750),
      ("memory_mib", .num 1024),
      ("disk_mib", .num 1024),
      ("timeout_seconds", .num 120)]),
    ("created_at", .str "2025-10-18T12:34:56Z"),
    ("updated_at", .str "2025-10-18T12:34:56Z"),
    ("last_started_at", .null),
    ("last_stopped_at", .null)]

/-- exec_response_example from scripts/generate_openapi.py. -/
def exec_response_example : Json :=
  .obj [
    ("exit_code", .num 0),
    ("stdout", .str "hello\n"),
    ("stderr", .str ""),
    ("duration_ms", .num 42),
    ("timed_out", .bool false)]

/-- execution_record_example from scripts/generate_openapi.py. -/
def execution_record_example : Json :=
  .obj [
    ("command", .str "python"),
    ("args", .arr [.str "-c", .str "print(\x27hello\x27)"]),
    ("executed_at", .str "2025-10-18T12:35:10Z"),
    ("exit_code", .num 0),
    ("stdout", .str "hello\n"),
    ("stderr", .str ""),
    ("duration_ms", .num 55),
    ("timed_out", .bool false)]

/-- The "info" member of issued_key_example (split out because the source
reuses issued_key_example()["info"] in two other places). -/
def issued_key_info : Json :=
  .obj [
    ("id", .str "4b2a4d3a-4cbe-4b05-87a3-9528cdf6a1ed"),
    ("scope", .obj [("type", .str "namespace"), ("namespace", .str "demo")]),
    ("rate_limit", .num 100),
    ("created_at", .str "2025-10-18T12:00:00Z"),
    ("last_used_at", .null),
    ("expires_at", .str "2025-11-17T12:00:00Z"),
    ("key_prefix", .str "bkg_demo_abcd")]

/-- issued_key_example from scripts/generate_openapi.py. -/
def issued_key_example : Json :=
  .obj [
    ("token", .str "bkg_demo_abcdefghijklmno"),
    ("info", issued_key_info)]

/-- rotation_webhook_payload_example from scripts/generate_openapi.py. -/
def rotation_webhook_payload_example : Json :=
  .obj [
    ("event", .str "cave.auth.key.rotated"),
    ("key_id", .str "a7d6b321-2c52-4e76-9af2-2f893d4856fc"),
    ("previous_key_id", .str "4b2a4d3a-4cbe-4b05-87a3-9528cdf6a1ed"),
    ("rotated_at", .str "2025-10-18T12:10:00Z"),
    ("scope", .obj [("type", .str "admin")]),
    ("owner", .str "admin"),
    ("key_prefix", .str "bkg_admin_new")]

/-- rotated_key_example from scripts/generate_openapi.py: previous is a copy
of issued_key_example()["info"], current is the dict literal of the source. -/
def rotated_key_example : Json :=
  .obj [
    ("token", .str "bkg_admin_newtokenvalue"),
    ("info", .obj [
      ("id", .str "a7d6b321-2c52-4e76-9af2-2f893d4856fc"),
      ("scope", .obj [("type", .str "admin")]),
      ("rate_limit", .num 200),
      ("created_at", .str "2025-10-18T12:10:00Z"),
      ("key_prefix", .str "bkg_admin_new"),
      ("rotated_from", .str "4b2a4d3a-4cbe-4b05-87a3-9528cdf6a1ed"),
      ("rotated_at", .str "2025-10-18T12:10:00Z")]),
    ("previous", issued_key_info),
    ("webhook", .obj [
      ("event_id", .str "5b0c33d4-a1d8-4a1c-9844-3d955b1b4c6e"),
      ("signature", .str "sha256=abc123..."),
      ("payload", rotation_webhook_payload_example)])]

/-- error_example from scripts/generate_openapi.py. -/
def error_example (message : String) : Json := .obj [("error", .str message)]

/-- The `components` dict built at the top of build_spec. -/
def components : Json :=
  .obj [
    ("securitySchemes", .obj [
      ("bearerAuth", .obj [
        ("type", .str "http"),
        ("scheme", .str "bearer"),
        ("bearerFormat", .str "API Token")])]),
    ("schemas", .obj [
      ("ErrorResponse", .obj [
        ("type", .str "object"),
        ("required", .arr [.str "error"]),
        ("properties", .obj [
          ("error", .obj [("type", .str "string"),
            ("description", .str "Human readable error message.")])]),
        ("example", error_example "sandbox 123 not found")]),
      ("SandboxLimits", .obj [
        ("type", .str "object"),
        ("required", .arr [.str "cpu_millis", .str "memory_mib", .str "disk_mib",
          .str "timeout_seconds"]),
        ("properties", .obj [
          ("cpu_millis", .obj [("type", .str "integer"), ("format", .str "int32"),
            ("description", .str "CPU time slice in milli-CPUs.")]),
          ("memory_mib", .obj [("type", .str "integer"), ("format", .str "int64"),
            ("description", .str "Memory limit in MiB.")]),
          ("disk_mib", .obj [("type", .str "integer"), ("format", .str "int64"),
            ("description", .str "Ephemeral disk limit in MiB.")]),
          ("timeout_seconds", .obj [("type", .str "integer"), ("format", .str "int32"),
            ("description", .str "Execution timeout in seconds.")])])]),
      ("SandboxResponse", .obj [
        ("type", .str "object"),
        ("required", .arr [.str "id", .str "namespace", .str "name", .str "runtime",
          .str "status", .str "limits", .str "created_at", .str "updated_at"]),
        ("properties", .obj [
          ("id", .obj [("type", .str "string"), ("format", .str "uuid")]),
          ("namespace", .obj [("type", .str "string")]),
          ("name", .obj [("type", .str "string")]),
          ("runtime", .obj [("type", .str "string")]),
          ("status", .obj [("type", .str "string"),
            ("description", .str "Current sandbox lifecycle state.")]),
          ("limits", .obj [("$ref", .str "#/components/schemas/SandboxLimits")]),
          ("created_at", .obj [("type", .str "string"), ("format", .str "date-time")]),
          ("updated_at", .obj [("type", .str "string"), ("format", .str "date-time")]),
          ("last_started_at", .obj [("type", .str "string"), ("format", .str "date-time"),
            ("nullable", .bool true)]),
          ("last_stopped_at", .obj [("type", .str "string"), ("format", .str "date-time"),
            ("nullable", .bool true)])]),
        ("example", sandbox_response_example)]),
      ("CreateSandboxLimits", .obj [
        ("type", .str "object"),
        ("properties", .obj [
          ("cpu_millis", .obj [("type", .str "integer"), ("format", .str "int32")]),
          ("memory_mib", .obj [("type", .str "integer"), ("format", .str "int64")]),
          ("disk_mib", .obj [("type", .str "integer"), ("format", .str "int64")]),
          ("timeout_seconds", .obj [("type", .str "integer"), ("format", .str "int32")])]),
        ("description", .str "Optional overrides for namespace defaults.")]),
      ("CreateSandboxRequest", .obj [
        ("type", .str "object"),
        ("required", .arr [.str "namespace", .str "name"]),
        ("properties", .obj [
          ("namespace", .obj [("type", .str "string")]),
          ("name", .obj [("type", .str "string")]),
          ("runtime", .obj [("type", .str "string"),
            ("description", .str "Sandbox runtime identifier (defaults to process).")]),
          ("limits", .obj [("$ref", .str "#/components/schemas/CreateSandboxLimits")])]),
        ("example", .obj [
          ("namespace", .str "demo"),
          ("name", .str "runner"),
          ("runtime", .str "process"),
          ("limits", .obj [
            ("cpu_millis", .num 750),
            ("memory_mib", .num 1024),
            ("disk_mib", .num 1024),
            ("timeout_seconds", .num 120)])])]),
      ("ExecRequest", .obj [
        ("type", .str "object"),
        ("required", .arr [.str "command"]),
        ("properties", .obj [
          ("command", .obj [("type", .str "string")]),
          ("args", .obj [
            ("type", .str "array"),
            ("items", .obj [("type", .str "string")]),
            ("description", .str "Command arguments.")]),
          ("stdin", .obj [("type", .str "string"),
            ("description", .str "Optional STDIN payload.")]),
          ("timeout_ms", .obj [("type", .str "integer"), ("format", .str "int64"),
            ("description", .str "Optional execution timeout in milliseconds.")])]),
        ("example", .obj [
          ("command", .str "python"),
          ("args", .arr [.str "-c", .str "print(\x27hello\x27)"]),
          ("stdin", .null),
          ("timeout_ms", .num 2000)])]),
      ("ExecResponse", .obj [
        ("type", .str "object"),
        ("required", .arr [.str "duration_ms", .str "timed_out"]),
        ("properties", .obj [
          ("exit_code", .obj [("type", .str "integer"), ("format", .str "int32"),
            ("nullable", .bool true)]),
          ("stdout", .obj [("type", .str "string"), ("nullable", .bool true)]),
          ("stderr", .obj [("type", .str "string"), ("nullable", .bool true)]),
          ("duration_ms", .obj [("type", .str "integer"), ("format", .str "int64")]),
          ("timed_out", .obj [("type", .str "boolean")])]),
        ("example", exec_response_example)]),
      ("ExecutionRecord", .obj [
        ("type", .str "object"),
        ("required", .arr [.str "command", .str "args", .str "executed_at",
          .str "duration_ms", .str "timed_out"]),
        ("properties", .obj [
          ("command", .obj [("type", .str "string")]),
          ("args", .obj [("type", .str "array"), ("items", .obj [("type", .str "string")])]),
          ("executed_at", .obj [("type", .str "string"), ("format", .str "date-time")]),
          ("exit_code", .obj [("type", .str "integer"), ("format", .str "int32"),
            ("nullable", .bool true)]),
          ("stdout", .obj [("type", .str "string"), ("nullable", .bool true)]),
          ("stderr", .obj [("type", .str "string"), ("nullable", .bool true)]),
          ("duration_ms", .obj [("type", .str "integer"), ("format", .str "int64")]),
          ("timed_out", .obj [("type", .str "boolean")])]),
        ("example", execution_record_example)]),
      ("CreateKeyScope", .obj [
        ("oneOf", .arr [
          .obj [
            ("type", .str "object"),
            ("required", .arr [.str "type"]),
            ("properties", .obj [
              ("type", .obj [("type", .str "string"), ("enum", .arr [.str "admin"])])])],
          .obj [
            ("type", .str "object"),
            ("required", .arr [.str "type", .str "namespace"]),
            ("properties", .obj [
              ("type", .obj [("type", .str "string"), ("enum", .arr [.str "namespace"])]),
              ("namespace", .obj [("type", .str "string")])])]]),
        ("discriminator", .obj [("propertyName", .str "type")])]),
      ("CreateKeyRequest", .obj [
        ("type", .str "object"),
        ("required", .arr [.str "scope"]),
        ("properties", .obj [
          ("scope", .obj [("$ref", .str "#/components/schemas/CreateKeyScope")]),
          ("rate_limit", .obj [("type", .str "integer"), ("format", .str "int32"),
            ("description", .str "Requests per minute (defaults to 100).")]),
          ("ttl_seconds", .obj [("type", .str "integer"), ("format", .str "int64"),
            ("description", .str "Optional time-to-live for the key.")])]),
        ("example", .obj [
          ("scope", .obj [("type", .str "namespace"), ("namespace", .str "demo")]),
          ("rate_limit", .num 100),
          ("ttl_seconds", .num 2592000)])]),
      ("KeyScope", .obj [
        ("oneOf", .arr [
          .obj [
            ("type", .str "object"),
            ("required", .arr [.str "type"]),
            ("properties", .obj [
              ("type", .obj [("type", .str "string"), ("enum", .arr [.str "admin"])])])],
          .obj [
            ("type", .str "object"),
            ("required", .arr [.str "type", .str "namespace"]),
            ("properties", .obj [
              ("type", .obj [("type", .str "string"), ("enum", .arr [.str "namespace"])]),
              ("namespace", .obj [("type", .str "string")])])]]),
        ("discriminator", .obj [("propertyName", .str "type")])]),
      ("KeyInfo", .obj [
        ("type", .str "object"),
        ("required", .arr [.str "id", .str "scope", .str "rate_limit",
          .str "created_at", .str "key_prefix"]),
        ("properties", .obj [
          ("id", .obj [("type", .str "string"), ("format", .str "uuid")]),
          ("scope", .obj [("$ref", .str "#/components/schemas/KeyScope")]),
          ("rate_limit", .obj [("type", .str "integer"), ("format", .str "int32")]),
          ("created_at", .obj [("type", .str "string"), ("format", .str "date-time")]),
          ("last_used_at", .obj [("type", .str "string"), ("format", .str "date-time"),
            ("nullable", .bool true)]),
          ("expires_at", .obj [("type", .str "string"), ("format", .str "date-time"),
            ("nullable", .bool true)]),
          ("key_prefix", .obj [("type", .str "string"),
            ("description", .str "Truncated token prefix for audit displays.")]),
          ("rotated_from", .obj [("type", .str "string"), ("format", .str "uuid"),
            ("nullable", .bool true)]),
          ("rotated_at", .obj [("type", .str "string"), ("format", .str "date-time"),
            ("nullable", .bool true)])])]),
      ("IssuedKeyResponse", .obj [
        ("type", .str "object"),
        ("required", .arr [.str "token", .str "info"]),
        ("properties", .obj [
          ("token", .obj [("type", .str "string"),
            ("description", .str "Full bearer token. Shown once.")]),
          ("info", .obj [("$ref", .str "#/components/schemas/KeyInfo")])]),
        ("example", issued_key_example)]),
      ("RotateKeyRequest", .obj [
        ("type", .str "object"),
        ("required", .arr [.str "key_id"]),
        ("properties", .obj [
          ("key_id", .obj [("type", .str "string"), ("format", .str "uuid")]),
          ("rate_limit", .obj [("type", .str "integer"), ("format", .str "int32"),
            ("description", .str "Override rate limit for the rotated key (requests per minute).")]),
          ("ttl_seconds", .obj [("type", .str "integer"), ("format", .str "int64"),
            ("description", .str "Optional TTL for the rotated key in seconds.")])]),
        ("example", .obj [
          ("key_id", .str "4b2a4d3a-4cbe-4b05-87a3-9528cdf6a1ed"),
          ("rate_limit", .num 200)])]),
      ("RotationWebhookPayload", .obj [
        ("type", .str "object"),
        ("required", .arr [.str "event", .str "key_id", .str "previous_key_id",
          .str "rotated_at", .str "scope", .str "owner", .str "key_prefix"]),
        ("properties", .obj [
          ("event", .obj [("type", .str "string")]),
          ("key_id", .obj [("type", .str "string"), ("format", .str "uuid")]),
          ("previous_key_id", .obj [("type", .str "string"), ("format", .str "uuid")]),
          ("rotated_at", .obj [("type", .str "string"), ("format", .str "date-time")]),
          ("scope", .obj [("$ref", .str "#/components/schemas/KeyScope")]),
          ("owner", .obj [("type", .str "string")]),
          ("key_prefix", .obj [("type", .str "string")])]),
        ("example", rotation_webhook_payload_example)]),
      ("RotationWebhookResponse", .obj [
        ("type", .str "object"),
        ("required", .arr [.str "event_id", .str "signature", .str "payload"]),
        ("properties", .obj [
          ("event_id", .obj [("type", .str "string"), ("format", .str "uuid")]),
          ("signature", .obj [("type", .str "string")]),
          ("payload", .obj [("$ref", .str "#/components/schemas/RotationWebhookPayload")])])]),
      ("RotatedKeyResponse", .obj [
        ("type", .str "object"),
        ("required", .arr [.str "token", .str "info", .str "previous", .str "webhook"]),
        ("properties", .obj [
          ("token", .obj [("type", .str "string")]),
          ("info", .obj [("$ref", .str "#/components/schemas/KeyInfo")]),
          ("previous", .obj [("$ref", .str "#/components/schemas/KeyInfo")]),
          ("webhook", .obj [("$ref", .str "#/components/schemas/RotationWebhookResponse")])]),
        ("example", rotated_key_example)])])]

/-- One entry of the `responses` dict local to build_spec. -/
def errorResponse (description message : String) : Json :=
  .obj [
    ("description", .str description),
    ("content", .obj [
      ("application/json", .obj [
        ("schema", .obj [("$ref", .str "#/components/schemas/ErrorResponse")]),
        ("example", error_example message)])])]

/-- responses["400"]. -/
def response400 : Json := errorResponse "Bad request" "namespace query parameter is required"

/-- responses["401"]. -/
def response401 : Json := errorResponse "Unauthorized" "missing Authorization bearer token"

/-- responses["403"]. -/
def response403 : Json := errorResponse "Forbidden" "insufficient permissions for requested scope"

/-- responses["404"]. -/
def response404 : Json := errorResponse "Not found" "sandbox 9f9c... not found"

/-- responses["409"]. -/
def response409 : Json :=
  errorResponse "Conflict" "sandbox \x27runner\x27 already exists in namespace \x27demo\x27"

/-- responses["500"]. -/
def response500 : Json := errorResponse "Internal server error" "unexpected internal error"

/-- The sandbox path-item parameter `{"name": "id", "in": "path", ...}`. -/
def idPathParam : Json :=
  .obj [
    ("name", .str "id"),
    ("in", .str "path"),
    ("required", .bool true),
    ("schema", .obj [("type", .str "string"), ("format", .str "uuid")])]

/-- The `paths` dict of build_spec, transcribed in source order. -/
def paths : Json :=
  .obj [
    ("/healthz", .obj [
      ("get", .obj [
        ("tags", .arr [.str "Operations"]),
        ("summary", .str "Health probe"),
        ("operationId", .str "getHealthz"),
        ("responses", .obj [
          ("200", .obj [("description", .str "Service is healthy")])])])]),
    ("/metrics", .obj [
      ("get", .obj [
        ("tags", .arr [.str "Operations"]),
        ("summary", .str "Prometheus metrics"),
        ("operationId", .str "getMetrics"),
        ("responses", .obj [
          ("200", .obj [
            ("description", .str "Metrics payload"),
            ("content", .obj [
              ("text/plain", .obj [
                ("schema", .obj [("type", .str "string")]),
                ("example", .str "# metrics\nbkg_cave_daemon_up 1\n")])])])])])]),
    ("/api/v1/sandboxes", .obj [
      ("post", .obj [
        ("tags", .arr [.str "Sandboxes"]),
        ("summary", .str "Create a sandbox"),
        ("operationId", .str "createSandbox"),
        ("security", .arr [.obj [("bearerAuth", .arr [])]]),
        ("requestBody", .obj [
          ("required", .bool true),
          ("content", .obj [
            ("application/json", .obj [
              ("schema", .obj [("$ref", .str "#/components/schemas/CreateSandboxRequest")]),
              ("example", ((components.getKeyD "schemas").getKeyD "CreateSandboxRequest").getKeyD "example")])])]),
        ("responses", .obj [
          ("200", .obj [
            ("description", .str "Sandbox created"),
            ("content", .obj [
              ("application/json", .obj [
                ("schema", .obj [("$ref", .str "#/components/schemas/SandboxResponse")]),
                ("example", sandbox_response_example)])])]),
          ("400", response400),
          ("401", response401),
          ("403", response403),
          ("409", response409),
          ("500", response500)])]),
      ("get", .obj [
        ("tags", .arr [.str "Sandboxes"]),
        ("summary", .str "List sandboxes in a namespace"),
        ("operationId", .str "listSandboxes"),
        ("security", .arr [.obj [("bearerAuth", .arr [])]]),
        ("parameters", .arr [
          .obj [
            ("name", .str "namespace"),
            ("in", .str "query"),
            ("required", .bool true),
            ("schema", .obj [("type", .str "string")]),
            ("description", .str "Namespace identifier to filter sandboxes.")]]),
        ("responses", .obj [
          ("200", .obj [
            ("description", .str "Sandboxes"),
            ("content", .obj [
              ("application/json", .obj [
                ("schema", .obj [
                  ("type", .str "array"),
                  ("items", .obj [("$ref", .str "#/components/schemas/SandboxResponse")])]),
                ("example", .arr [sandbox_response_example])])])]),
          ("400", response400),
          ("401", response401),
          ("403", response403),
          ("500", response500)])])]),
    ("/api/v1/sandboxes/{id}/status", .obj [
      ("get", .obj [
        ("tags", .arr [.str "Sandboxes"]),
        ("summary", .str "Inspect sandbox"),
        ("operationId", .str "getSandbox"),
        ("security", .arr [.obj [("bearerAuth", .arr [])]]),
        ("parameters", .arr [idPathParam]),
        ("responses", .obj [
          ("200", .obj [
            ("description", .str "Sandbox details"),
            ("content", .obj [
              ("application/json", .obj [
                ("schema", .obj [("$ref", .str "#/components/schemas/SandboxResponse")]),
                ("example", sandbox_response_example)])])]),
          ("401", response401),
          ("403", response403),
          ("404", response404),
          ("500", response500)])])]),
    ("/api/v1/sandboxes/{id}/start", .obj [
      ("post", .obj [
        ("tags", .arr [.str "Sandboxes"]),
        ("summary", .str "Start a sandbox"),
        ("operationId", .str "startSandbox"),
        ("security", .arr [.obj [("bearerAuth", .arr [])]]),
        ("parameters", .arr [idPathParam]),
        ("responses", .obj [
          ("200", .obj [
            ("description", .str "Sandbox started"),
            ("content", .obj [
              ("application/json", .obj [
                ("schema", .obj [("$ref", .str "#/components/schemas/SandboxResponse")]),
                ("example", ((sandbox_response_example.set "status" (.str "running")).set
                  "last_started_at" (.str "2025-10-18T12:35:05Z")))])])]),
          ("401", response401),
          ("403", response403),
          ("404", response404),
          ("409", response409),
          ("500", response500)])])]),
    ("/api/v1/sandboxes/{id}/exec", .obj [
      ("post", .obj [
        ("tags", .arr [.str "Sandboxes"]),
        ("summary", .str "Execute a command inside a sandbox"),
        ("operationId", .str "execSandbox"),
        ("security", .arr [.obj [("bearerAuth", .arr [])]]),
        ("parameters", .arr [idPathParam]),
        ("requestBody", .obj [
          ("required", .bool true),
          ("content", .obj [
            ("application/json", .obj [
              ("schema", .obj [("$ref", .str "#/components/schemas/ExecRequest")]),
              ("example", ((components.getKeyD "schemas").getKeyD "ExecRequest").getKeyD "example")])])]),
        ("responses", .obj [
          ("200", .obj [
            ("description", .str "Execution result"),
            ("content", .obj [
              ("application/json", .obj [
                ("schema", .obj [("$ref", .str "#/components/schemas/ExecResponse")]),
                ("example", exec_response_example)])])]),
          ("401", response401),
          ("403", response403),
          ("404", response404),
          ("500", response500)])])]),
    ("/api/v1/sandboxes/{id}/stop", .obj [
      ("post", .obj [
        ("tags", .arr [.str "Sandboxes"]),
        ("summary", .str "Stop a sandbox"),
        ("operationId", .str "stopSandbox"),
        ("security", .arr [.obj [("bearerAuth", .arr [])]]),
        ("parameters", .arr [idPathParam]),
        ("responses", .obj [
          ("204", .obj [("description", .str "Sandbox stopped")]),
          ("401", response401),
          ("403", response403),
          ("404", response404),
          ("409", response409),
          ("500", response500)])])]),
    ("/api/v1/sandboxes/{id}", .obj [
      ("delete", .obj [
        ("tags", .arr [.str "Sandboxes"]),
        ("summary", .str "Delete a sandbox"),
        ("operationId", .str "deleteSandbox"),
        ("security", .arr [.obj [("bearerAuth", .arr [])]]),
        ("parameters", .arr [idPathParam]),
        ("responses", .obj [
          ("204", .obj [("description", .str "Sandbox deleted")]),
          ("401", response401),
          ("403", response403),
          ("404", response404),
          ("500", response500)])])]),
    ("/api/v1/sandboxes/{id}/executions", .obj [
      ("get", .obj [
        ("tags", .arr [.str "Sandboxes"]),
        ("summary", .str "List recent executions"),
        ("operationId", .str "listSandboxExecutions"),
        ("security", .arr [.obj [("bearerAuth", .arr [])]]),
        ("parameters", .arr [
          idPathParam,
          .obj [
            ("name", .str "limit"),
            ("in", .str "query"),
            ("required", .bool false),
            ("schema", .obj [("type", .str "integer"), ("format", .str "int32"),
              ("minimum", .num 1), ("maximum", .num 100)]),
            ("description", .str "Maximum number of execution records (default 20).")]]),
        ("responses", .obj [
          ("200", .obj [
            ("description", .str "Execution history"),
            ("content", .obj [
              ("application/json", .obj [
                ("schema", .obj [
                  ("type", .str "array"),
                  ("items", .obj [("$ref", .str "#/components/schemas/ExecutionRecord")])]),
                ("example", .arr [execution_record_example])])])]),
          ("401", response401),
          ("403", response403),
          ("404", response404),
          ("500", response500)])])]),
    ("/api/v1/auth/keys", .obj [
      ("post", .obj [
        ("tags", .arr [.str "Auth"]),
        ("summary", .str "Issue an API key"),
        ("operationId", .str "issueKey"),
        ("security", .arr [.obj [("bearerAuth", .arr [])], .obj []]),
        ("requestBody", .obj [
          ("required", .bool true),
          ("content", .obj [
            ("application/json", .obj [
              ("schema", .obj [("$ref", .str "#/components/schemas/CreateKeyRequest")]),
              ("example", ((components.getKeyD "schemas").getKeyD "CreateKeyRequest").getKeyD "example")])])]),
        ("responses", .obj [
          ("201", .obj [
            ("description", .str "API key issued"),
            ("content", .obj [
              ("application/json", .obj [
                ("schema", .obj [("$ref", .str "#/components/schemas/IssuedKeyResponse")]),
                ("example", issued_key_example)])])]),
          ("401", response401),
          ("403", response403),
          ("500", response500)])]),
      ("get", .obj [
        ("tags", .arr [.str "Auth"]),
        ("summary", .str "List issued API keys"),
        ("operationId", .str "listKeys"),
        ("security", .arr [.obj [("bearerAuth", .arr [])]]),
        ("responses", .obj [
          ("200", .obj [
            ("description", .str "Known API keys"),
            ("content", .obj [
              ("application/json", .obj [
                ("schema", .obj [
                  ("type", .str "array"),
                  ("items", .obj [("$ref", .str "#/components/schemas/KeyInfo")])]),
                ("example", .arr [issued_key_example.getKeyD "info"])])])]),
          ("401", response401),
          ("403", response403),
          ("500", response500)])])]),
    ("/api/v1/auth/keys/rotate", .obj [
      ("post", .obj [
        ("tags", .arr [.str "Auth"]),
        ("summary", .str "Rotate an API key"),
        ("operationId", .str "rotateKey"),
        ("security", .arr [.obj [("bearerAuth", .arr [])]]),
        ("requestBody", .obj [
          ("required", .bool true),
          ("content", .obj [
            ("application/json", .obj [
              ("schema", .obj [("$ref", .str "#/components/schemas/RotateKeyRequest")]),
              ("example", ((components.getKeyD "schemas").getKeyD "RotateKeyRequest").getKeyD "example")])])]),
        ("responses", .obj [
          ("200", .obj [
            ("description", .str "API key rotated"),
            ("content", .obj [
              ("application/json", .obj [
                ("schema", .obj [("$ref", .str "#/components/schemas/RotatedKeyResponse")]),
                ("example", rotated_key_example)])])]),
          ("400", response400),
          ("401", response401),
          ("403", response403),
          ("404", response404),
          ("500", response500)])])]),
    ("/api/v1/auth/keys/rotated", .obj [
      ("post", .obj [
        ("tags", .arr [.str "Auth"]),
        ("summary", .str "Verify a rotation webhook payload"),
        ("operationId", .str "verifyRotationWebhook"),
        ("security", .arr [.obj [("bearerAuth", .arr [])]]),
        ("parameters", .arr [
          .obj [
            ("name", .str "X-Cave-Webhook-Signature"),
            ("in", .str "header"),
            ("required", .bool true),
            ("schema", .obj [("type", .str "string")]),
            ("description", .str "HMAC signature generated with CAVE_ROTATION_WEBHOOK_SECRET.")]]),
        ("requestBody", .obj [
          ("required", .bool true),
          ("content", .obj [
            ("application/json", .obj [
              ("schema", .obj [("$ref", .str "#/components/schemas/RotationWebhookPayload")]),
              ("example", rotation_webhook_payload_example)])])]),
        ("responses", .obj [
          ("204", .obj [("description", .str "Webhook accepted")]),
          ("401", response401),
          ("403", response403),
          ("500", response500)])])]),
    ("/api/v1/auth/keys/{id}", .obj [
      ("delete", .obj [
        ("tags", .arr [.str "Auth"]),
        ("summary", .str "Revoke an API key"),
        ("operationId", .str "revokeKey"),
        ("security", .arr [.obj [("bearerAuth", .arr [])]]),
        ("parameters", .arr [idPathParam]),
        ("responses", .obj [
          ("204", .obj [("description", .str "Key revoked")]),
          ("401", response401),
          ("403", response403),
          ("404", response404),
          ("500", response500)])])])]

/-- build_spec from scripts/generate_openapi.py: the full OpenAPI document. -/
def build_spec : Json :=
  .obj [
    ("openapi", .str "3.0.3"),
    ("info", .obj [
      ("title", .str "Cave Daemon API"),
      ("version", .str "0.1.0"),
      ("description", .str "REST interface for managing sandboxes, executing workloads, and issuing API keys. See docs/api.md for narrative documentation.")]),
    ("servers", .arr [
      .obj [("url", .str "http://localhost:8080"), ("description", .str "Local development")]]),
    ("tags", .arr [
      .obj [("name", .str "Operations"), ("description", .str "Health and telemetry endpoints.")],
      .obj [("name", .str "Sandboxes"), ("description", .str "Sandbox lifecycle management.")],
      .obj [("name", .str "Auth"), ("description", .str "API key issuance and revocation.")]]),
    ("paths", paths),
    ("components", components)]

/-- Hex digit (lowercase), as emitted by json.dumps \uXXXX escapes. -/
def hexDigit (n : Nat) : Char :=
  if n < 10 then Char.ofNat (48 + n) else Char.ofNat (87 + n % 16)

/-- Four-digit lowercase hex of n % 0x10000. -/
def hex4 (n : Nat) : String :=
  String.mk [hexDigit (n / 4096 % 16), hexDigit (n / 256 % 16),
    hexDigit (n / 16 % 16), hexDigit (n % 16)]

/-- One character escaped as Python json.dumps (ensure_ascii default) does. -/
def escapeChar (c : Char) : String :=
  let n := c.toNat
  if c = '"' then "\\\""
  else if c = '\\' then "\\\\"
  else if n = 8 then "\\b"
  else if n = 9 then "\\t"
  else if n = 10 then "\\n"
  else if n = 12 then "\\f"
  else if n = 13 then "\\r"
  else if n < 32 then "\\u" ++ hex4 n
  else if n < 127 then String.mk [c]
  else if n < 65536 then "\\u" ++ hex4 n
  else
    "\\u" ++ hex4 (55296 + (n - 65536) / 1024) ++ "\\u" ++ hex4 (56320 + (n - 65536) % 1024)

/-- A JSON string literal as Python json.dumps renders it. -/
def quoteString (s : String) : String :=
  "\"" ++ String.join (s.data.map escapeChar) ++ "\""

/-- 2-space indentation at the given nesting level (json.dumps(..., indent=2)). -/
def indentStr (lvl : Nat) : String := String.mk (List.replicate (2 * lvl) ' ')

mutual

/-- json.dumps(value, indent=2) rendered at a nesting level: newline-separated
items, item separator ",", key separator ": ", literals null/true/false. -/
def dumpJson (lvl : Nat) : Json → String
  | .null => "null"
  | .bool true => "true"
  | .bool false => "false"
  | .num i => toString i
  | .str s => quoteString s
  | .arr [] => "[]"
  | .arr xs =>
      "[\n" ++ String.intercalate ",\n" (dumpArrItems (lvl + 1) xs) ++ "\n" ++
        indentStr lvl ++ "]"
  | .obj [] => "\x7b\x7d"
  | .obj fs =>
      "\x7b\n" ++ String.intercalate ",\n" (dumpObjItems (lvl + 1) fs) ++ "\n" ++
        indentStr lvl ++ "\x7d"

/-- The rendered elements of an array. -/
def dumpArrItems (lvl : Nat) : List Json → List String
  | [] => []
  | x :: xs => (indentStr lvl ++ dumpJson lvl x) :: dumpArrItems lvl xs

/-- The rendered `"key": value` members of an object. -/
def dumpObjItems (lvl : Nat) : List (String × Json) → List String
  | [] => []
  | (k, v) :: fs =>
      (indentStr lvl ++ quoteString k ++ ": " ++ dumpJson lvl v) :: dumpObjItems lvl fs

end

/-- json.dumps(spec, indent=2). -/
def dumps (j : Json) : String := dumpJson 0 j

/-- The output path main picks: argv[1] when given, else "openapi.yaml". -/
def outputPath (argv : List String) : String := (argv.get? 1).getD "openapi.yaml"

/-- main from scripts/generate_openapi.py as the single write it performs:
the chosen path and the bytes written (json.dumps of build_spec with indent 2
plus a trailing newline). -/
def mainWrites (argv : List String) : String × String :=
  (outputPath argv, dumps build_spec ++ "\n")

/-- The operation object of build_spec at a path and HTTP method. -/
def opAt (path method : String) : Json :=
  ((build_spec.getKeyD "paths").getKeyD path).getKeyD method

/-- The operation declares bearer auth as required:
`security == [{"bearerAuth": []}]`. -/
def bearerRequired (op : Json) : Bool :=
  match op.getKey "security" with
  | some (.arr [.obj [("bearerAuth", .arr [])]]) => true
  | _ => false

/-- The operation declares bearer auth as optional (self-service allowed):
`security == [{"bearerAuth": []}, {}]`. -/
def bearerOptional (op : Json) : Bool :=
  match op.getKey "security" with
  | some (.arr [.obj [("bearerAuth", .arr [])], .obj []]) => true
  | _ => false

/-- The operation declares a response for the given status code. -/
def declaresStatus (op : Json) (code : String) : Bool :=
  (op.getKeyD "responses").hasKey code

/-- One row of the HTTP-surface table: the path and method exist with the
stated auth mode, the stated success status and all the stated error
statuses. -/
def surfaceRowOk (path method : String) (authRequired : Bool) (success : String)
    (errors : List String) : Bool :=
  let op := opAt path method
  (if authRequired then bearerRequired op else bearerOptional op) &&
    declaresStatus op success && errors.all (declaresStatus op)

/-- All five auth-endpoint rows of the spec table, checked against build_spec. -/
def authSurfaceOk : Bool :=
  surfaceRowOk "/api/v1/auth/keys" "post" false "201" ["401", "403"] &&
  surfaceRowOk "/api/v1/auth/keys" "get" true "200" ["401", "403"] &&
  surfaceRowOk "/api/v1/auth/keys/rotate" "post" true "200" ["400", "401", "403", "404"] &&
  surfaceRowOk "/api/v1/auth/keys/rotated" "post" true "204" ["401", "403"] &&
  surfaceRowOk "/api/v1/auth/keys/{id}" "delete" true "204" ["401", "403", "404"]

/-- The named schema in build_spec components. -/
def schemaOf (name : String) : Json :=
  ((build_spec.getKeyD "components").getKeyD "schemas").getKeyD name

/-- A schema's `required` array read as a string list (`none` when absent or
not an array of strings). -/
def requiredList (schema : Json) : Option (List String) :=
  match schema.getKey "required" with
  | some (.arr xs) => asStrings xs
  | _ => none
where
  asStrings : List Json → Option (List String)
    | [] => some []
    | .str s :: rest => (asStrings rest).map (s :: ·)
    | _ => none

/-- The key list of a schema's `properties` object. -/
def propertyNames (schema : Json) : List String := (schema.getKeyD "properties").keys

/-- The 200 response schema of GET /api/v1/auth/keys. -/
def listKeysResponseSchema : Json :=
  (((((opAt "/api/v1/auth/keys" "get").getKeyD "responses").getKeyD
    "200").getKeyD "content").getKeyD "application/json").getKeyD "schema"

/-- C2 as one boolean: KeyInfo has no token property (and does not require
one), IssuedKeyResponse and RotatedKeyResponse both require and declare a
token property, and the list endpoint's 200 schema is an array of KeyInfo. -/
def tokenExposureOk : Bool :=
  (!(((schemaOf "KeyInfo").getKeyD "properties").hasKey "token")) &&
  (requiredList (schemaOf "KeyInfo") == some
    ["id", "scope", "rate_limit", "created_at", "key_prefix"]) &&
  (requiredList (schemaOf "IssuedKeyResponse") == some ["token", "info"]) &&
  (((schemaOf "IssuedKeyResponse").getKeyD "properties").hasKey "token") &&
  (requiredList (schemaOf "RotatedKeyResponse") == some
    ["token", "info", "previous", "webhook"]) &&
  (((schemaOf "RotatedKeyResponse").getKeyD "properties").hasKey "token") &&
  (listKeysResponseSchema.getKey "type" == some (.str "array")) &&
  (match listKeysResponseSchema.getKey "items" with
   | some (.obj [("$ref", .str r)]) => r == "#/components/schemas/KeyInfo"
   | _ => false)

/-- The POST /api/v1/auth/keys/rotated operation. -/
def rotatedWebhookOp : Json := opAt "/api/v1/auth/keys/rotated" "post"

/-- C4 as one boolean: the webhook operation takes the required
X-Cave-Webhook-Signature header (documented as an HMAC with
CAVE_ROTATION_WEBHOOK_SECRET), and its declared responses are exactly
204 (success), 401, 403 (the only client-error statuses) and the generic 500
internal-error response. -/
def webhookSurfaceOk : Bool :=
  (match rotatedWebhookOp.getKey "parameters" with
   | some (.arr [p]) =>
       (p.getKey "name" == some (.str "X-Cave-Webhook-Signature")) &&
       (p.getKey "in" == some (.str "header")) &&
       (p.getKey "required" == some (.bool true)) &&
       (p.getKey "description" == some
         (.str "HMAC signature generated with CAVE_ROTATION_WEBHOOK_SECRET."))
   | _ => false) &&
  ((rotatedWebhookOp.getKeyD "responses").keys == ["204", "401", "403", "500"]) &&
  ((rotatedWebhookOp.getKeyD "responses").keys.all
    (fun c => c == "204" || c == "401" || c == "403" || c == "500"))

/-- The seven payload fields of the data model, in source order. -/
def webhookPayloadFields : List String :=
  ["event", "key_id", "previous_key_id", "rotated_at", "scope", "owner", "key_prefix"]

/-- C5 as one boolean: RotationWebhookPayload requires exactly the seven
fields, declares properties for exactly those seven, and its example carries
exactly those keys. -/
def webhookPayloadFieldsOk : Bool :=
  (requiredList (schemaOf "RotationWebhookPayload") == some webhookPayloadFields) &&
  (propertyNames (schemaOf "RotationWebhookPayload") == webhookPayloadFields) &&
  (((schemaOf "RotationWebhookPayload").getKeyD "example").keys == webhookPayloadFields) &&
  (rotation_webhook_payload_example.keys == webhookPayloadFields)

/-- Validation semantics (OpenAPI 3.0 / JSON Schema) of the first oneOf
branch of the KeyScope and CreateKeyScope schemas emitted by build_spec:
`{"type": "object", "required": ["type"],
  "properties": {"type": {"type": "string", "enum": ["admin"]}}}` —
the instance must be an object, must carry a `type` member, and a `type`
member (if present) must be the string "admin"; other members are
unconstrained. -/
def admitsAdminBranch : Json → Bool
  | .obj fs =>
      (Json.lookupKey fs "type").isSome &&
      (match Json.lookupKey fs "type" with
       | some (.str s) => s == "admin"
       | some _ => false
       | none => true)
  | _ => false

/-- Validation semantics of the second oneOf branch of the KeyScope and
CreateKeyScope schemas emitted by build_spec:
`{"type": "object", "required": ["type", "namespace"],
  "properties": {"type": {"type": "string", "enum": ["namespace"]},
                 "namespace": {"type": "string"}}}` —
the instance must be an object carrying `type` and `namespace` members, a
`type` member must be the string "namespace", and a `namespace` member must
be a string (with no further constraint: the schema states no minLength). -/
def admitsNamespaceBranch : Json → Bool
  | .obj fs =>
      (Json.lookupKey fs "type").isSome &&
      (Json.lookupKey fs "namespace").isSome &&
      (match Json.lookupKey fs "type" with
       | some (.str s) => s == "namespace"
       | some _ => false
       | none => true) &&
      (match Json.lookupKey fs "namespace" with
       | some (.str _) => true
       | some _ => false
       | none => true)
  | _ => false

/-- A JSON instance is admitted by the KeyScope (equally CreateKeyScope)
schema: oneOf validates against exactly one branch (the discriminator object
is an annotation and imposes no constraint). -/
def keyScopeAdmits (j : Json) : Bool :=
  (admitsAdminBranch j && !admitsNamespaceBranch j) ||
  (!admitsAdminBranch j && admitsNamespaceBranch j)

/-- The property claimed of admitted scope values: an Admin scope with no
parameters, or a Namespace scope whose namespace string is non-empty. -/
def claimedScopeShape (j : Json) : Bool :=
  (match j with
   | .obj [("type", .str "admin")] => true
   | _ => false) ||
  (match j.getKey "type", j.getKey "namespace" with
   | some (.str "namespace"), some (.str ns) => ns != ""
   | _, _ => false)

end OpenapiGen

mutual

/-- Compact JSON rendering with Python json.dumps default separators
(", " between items, ": " after keys); used for the canonical webhook
payload serialization. -/
def Json.dumpMin : Json → String
  | .null => "null"
  | .bool true => "true"
  | .bool false => "false"
  | .num i => toString i
  | .str s => OpenapiGen.quoteString s
  | .arr xs => "[" ++ String.intercalate ", " (Json.dumpMinList xs) ++ "]"
  | .obj fs => "\x7b" ++ String.intercalate ", " (Json.dumpMinFields fs) ++ "\x7d"

/-- Rendered array elements. -/
def Json.dumpMinList : List Json → List String
  | [] => []
  | x :: xs => Json.dumpMin x :: Json.dumpMinList xs

/-- Rendered `"key": value` members. -/
def Json.dumpMinFields : List (String × Json) → List String
  | [] => []
  | (k, v) :: fs =>
      (OpenapiGen.quoteString k ++ ": " ++ Json.dumpMin v) :: Json.dumpMinFields fs

end

namespace SpecModel

/-- Modelled from the spec: KeyScope is a tagged variant, Admin with no
parameters or Namespace carrying a namespace string (§3 DATA MODEL); no
implementation exists under src/, only the generator describing it. -/
inductive KeyScope where
  | admin : KeyScope
  | nspace : String → KeyScope
deriving DecidableEq

/-- The JSON encoding of a scope as the generator's examples show it. -/
def KeyScope.toJson : KeyScope → Json
  | .admin => .obj [("type", .str "admin")]
  | .nspace n => .obj [("type", .str "namespace"), ("namespace", .str n)]

/-- Modelled from the spec: the ephemeral RotationWebhookPayload value —
event tag, new key id, previous key id, rotation time, scope, owner and the
non-secret key prefix (named key_pref here, key_prefix in the wire format).
The Webhook Notifier itself is missing from src/. -/
structure RotationPayload where
  event : String
  key_id : String
  previous_key_id : String
  rotated_at : String
  scope : KeyScope
  owner : String
  key_pref : String

/-- Modelled from the spec: the canonical serialization of a payload —
deterministic, stable field ordering (§4.5): the compact JSON rendering of
the seven fields in their declared order. -/
def canonicalString (p : RotationPayload) : String :=
  Json.dumpMin (.obj [
    ("event", .str p.event),
    ("key_id", .str p.key_id),
    ("previous_key_id", .str p.previous_key_id),
    ("rotated_at", .str p.rotated_at),
    ("scope", p.scope.toJson),
    ("owner", .str p.owner),
    ("key_prefix", .str p.key_pref)])

/-- Canonical payload bytes: the code points of the canonical string (the
canonical strings are ASCII, where code points and UTF-8 bytes coincide). -/
def canonicalBytes (p : RotationPayload) : List Nat :=
  (canonicalString p).data.map Char.toNat

/-- Truncation to a 32-bit word. -/
def w32 (n : Nat) : Nat := n % 4294967296

/-- 32-bit right rotation (arguments below 2^32). -/
def rotr (x n : Nat) : Nat := w32 ((x >>> n) ||| (x <<< (32 - n)))

/-- SHA-256 sigma-0 message-schedule function. -/
def ssig0 (x : Nat) : Nat := (rotr x 7) ^^^ (rotr x 18) ^^^ (x >>> 3)

/-- SHA-256 sigma-1 message-schedule function. -/
def ssig1 (x : Nat) : Nat := (rotr x 17) ^^^ (rotr x 19) ^^^ (x >>> 10)

/-- SHA-256 Sigma-0 round function. -/
def bsig0 (x : Nat) : Nat := (rotr x 2) ^^^ (rotr x 13) ^^^ (rotr x 22)

/-- SHA-256 Sigma-1 round function. -/
def bsig1 (x : Nat) : Nat := (rotr x 6) ^^^ (rotr x 11) ^^^ (rotr x 25)

/-- The 64 SHA-256 round constants (FIPS 180-4), written in decimal. -/
def K : List Nat :=
  [1116352408, 1899447441, 3049323471, 3921009573, 961987163,
   1508970993, 2453635748, 2870763221, 3624381080, 310598401,
   607225278, 1426881987, 1925078388, 2162078206, 2614888103,
   3248222580, 3835390401, 4022224774, 264347078, 604807628,
   770255983, 1249150122, 1555081692, 1996064986, 2554220882,
   2821834349, 2952996808, 3210313671, 3336571891, 3584528711,
   113926993, 338241895, 666307205, 773529912, 1294757372,
   1396182291, 1695183700, 1986661051, 2177026350, 2456956037,
   2730485921, 2820302411, 3259730800, 3345764771, 3516065817,
   3600352804, 4094571909, 275423344, 430227734, 506948616,
   659060556, 883997877, 958139571, 1322822218, 1537002063,
   1747873779, 1955562222, 2024104815, 2227730452, 2361852424,
   2428436474, 2756734187, 3204031479, 3329325298]

/-- The eight 32-bit chaining values of SHA-256. -/
structure HState where
  a : Nat
  b : Nat
  c : Nat
  d : Nat
  e : Nat
  f : Nat
  g : Nat
  h : Nat

/-- The SHA-256 initial hash value (FIPS 180-4), written in decimal. -/
def initH : HState :=
  ⟨1779033703, 3144134277, 1013904242, 2773480762,
   1359893119, 2600822924, 528734635, 1541459225⟩

/-- Big-endian 8-byte rendering of a 64-bit length. -/
def be64 (n : Nat) : List Nat :=
  [(n >>> 56) % 256, (n >>> 48) % 256, (n >>> 40) % 256, (n >>> 32) % 256,
   (n >>> 24) % 256, (n >>> 16) % 256, (n >>> 8) % 256, n % 256]

/-- Big-endian 4-byte rendering of a 32-bit word. -/
def be32 (n : Nat) : List Nat :=
  [(n >>> 24) % 256, (n >>> 16) % 256, (n >>> 8) % 256, n % 256]

/-- SHA-256 padding: a 0x80 byte, zeros to 56 mod 64, the bit length in
8 big-endian bytes. -/
def padMsg (msg : List Nat) : List Nat :=
  msg ++ [128] ++ List.replicate ((119 - (msg.length % 64)) % 64) 0 ++
    be64 (8 * msg.length)

/-- Four bytes to one big-endian 32-bit word each. -/
def toWords : List Nat → List Nat
  | b0 :: b1 :: b2 :: b3 :: rest =>
      ((b0 <<< 24) ||| (b1 <<< 16) ||| (b2 <<< 8) ||| b3) :: toWords rest
  | _ => []

/-- Split into 64-byte blocks (fuel is the byte count, enough for every
block since each step drops 64 bytes). -/
def chunksGo : Nat → List Nat → List (List Nat)
  | 0, _ => []
  | _, [] => []
  | fuel + 1, l => l.take 64 :: chunksGo fuel (l.drop 64)

/-- The 64-byte blocks of a padded message. -/
def chunks64 (l : List Nat) : List (List Nat) := chunksGo l.length l

/-- Extend a 16-word schedule by the given number of words. -/
def scheduleFrom (w : List Nat) : Nat → List Nat
  | 0 => w
  | n + 1 =>
      scheduleFrom
        (w ++ [w32 (w.getD (w.length - 16) 0 + ssig0 (w.getD (w.length - 15) 0) +
          w.getD (w.length - 7) 0 + ssig1 (w.getD (w.length - 2) 0))]) n

/-- The 64-word message schedule of one block. -/
def schedule (ws : List Nat) : List Nat := scheduleFrom ws 48

/-- One SHA-256 round. -/
def roundStep (ks ws : List Nat) (st : HState) (i : Nat) : HState :=
  let s1 := bsig1 st.e
  let ch := (st.e &&& st.f) ^^^ ((st.e ^^^ 0xffffffff) &&& st.g)
  let temp1 := w32 (st.h + s1 + ch + ks.getD i 0 + ws.getD i 0)
  let s0 := bsig0 st.a
  let maj := (st.a &&& st.b) ^^^ (st.a &&& st.c) ^^^ (st.b &&& st.c)
  let temp2 := w32 (s0 + maj)
  ⟨w32 (temp1 + temp2), st.a, st.b, st.c, w32 (st.d + temp1), st.e, st.f, st.g⟩

/-- The SHA-256 compression function over one 64-byte block. -/
def compress (st : HState) (block : List Nat) : HState :=
  let ws := schedule (toWords block)
  let fin := (List.range 64).foldl (roundStep K ws) st
  ⟨w32 (st.a + fin.a), w32 (st.b + fin.b), w32 (st.c + fin.c), w32 (st.d + fin.d),
   w32 (st.e + fin.e), w32 (st.f + fin.f), w32 (st.g + fin.g), w32 (st.h + fin.h)⟩

/-- The 32 digest bytes of a final state. -/
def digestBytes (st : HState) : List Nat :=
  be32 st.a ++ be32 st.b ++ be32 st.c ++ be32 st.d ++
    be32 st.e ++ be32 st.f ++ be32 st.g ++ be32 st.h

/-- SHA-256 of a byte list. -/
def sha256 (msg : List Nat) : List Nat :=
  digestBytes ((chunks64 (padMsg msg)).foldl compress initH)

/-- HMAC-SHA-256: hash long keys, zero-pad to the 64-byte block, inner hash
with the 0x36 pad, outer hash with the 0x5c pad. -/
def hmacSha256 (key msg : List Nat) : List Nat :=
  let k0 := if 64 < key.length then sha256 key else key
  let kp := k0 ++ List.replicate (64 - k0.length) 0
  sha256 ((kp.map (fun b => b ^^^ 0x5c)) ++ sha256 ((kp.map (fun b => b ^^^ 0x36)) ++ msg))

/-- Modelled from the spec: constant-time comparison of two byte strings —
accumulate the OR of bytewise XORs and compare the accumulator with zero, so
the work done does not depend on where the first difference lies (§4.5). -/
def ctEq (a b : List Nat) : Bool :=
  (a.length == b.length) &&
    (((a.zip b).foldl (fun acc p => acc ||| (p.1 ^^^ p.2)) 0) == 0)

/-- Modelled from the spec: sign computes the HMAC over the canonical
payload bytes with the process-wide rotation secret (§4.5
build_notification). -/
def sign (secret : List Nat) (p : RotationPayload) : List Nat :=
  hmacSha256 secret (canonicalBytes p)

/-- Modelled from the spec: verify recomputes the HMAC over the supplied
canonical bytes and constant-time-compares it against the supplied
signature; it is total, so it returns false (never throws) on any mismatch,
including malformed input (§4.5). -/
def verify (secret : List Nat) (payload_bytes signature : List Nat) : Bool :=
  ctEq (hmacSha256 secret payload_bytes) signature

/-- Flip the bit at (byte i / 8, bit i % 8) of a byte string. -/
def flipBit (i : Nat) (l : List Nat) : List Nat :=
  l.set (i / 8) (l.getD (i / 8) 0 ^^^ (1 <<< (i % 8)))

/-- Modelled from the spec: one issued-key record of the Key Store
(§3 DATA MODEL); timestamps are abstract instants, key_pref models
key_prefix. -/
structure KeyRecord where
  id : String
  scope : KeyScope
  rate_limit : Nat
  lookup_hash : String
  key_pref : String
  created_at : Nat
  last_used_at : Option Nat
  expires_at : Option Nat
  rotated_from : Option String
  rotated_at : Option Nat
  revoked : Bool

/-- Modelled from the spec: the Key Store holding all issued-key records
(a dumb keyed container, §4.2). -/
abbrev Store : Type := List KeyRecord

/-- Modelled from the spec: find_by_id (§4.2). -/
def find_by_id (s : Store) (id : String) : Option KeyRecord :=
  List.find? (fun r => r.id == id) s

/-- Modelled from the spec: mark_revoked flips the revoked flag of the
record with the given id — idempotent, a no-op on an already-revoked key
(§4.2). -/
def mark_revoked (s : Store) (id : String) : Store :=
  List.map (fun r => if r.id == id then { r with revoked := true } else r) s

/-- Errors of the Key Manager operations modelled here. -/
inductive KeyMgrError where
  | notFound : KeyMgrError
deriving DecidableEq

/-- Modelled from the spec: revoke(id) fails with NotFound when no record
with that id exists, otherwise marks it revoked; succeeds silently on an
already-revoked id (§4.4). -/
def revoke (s : Store) (id : String) : Except KeyMgrError Store :=
  match find_by_id s id with
  | none => .error .notFound
  | some _ => .ok (mark_revoked s id)

/-- A concrete record used to instantiate the revocation property. -/
def sampleRecord : KeyRecord :=
  ⟨"k1", .nspace "demo", 100, "lh", "bkg_demo_abcd", 0, none, none, none, none, false⟩

/-- A one-record store used to instantiate the revocation property. -/
def sampleStore : Store := [sampleRecord]

end SpecModel

namespace SbomGen

/-- The observable outcome of the syft subprocess invocation in
scripts/generate_sbom.py: the binary is missing (FileNotFoundError), it
exited non-zero (CalledProcessError with captured stderr/stdout and the
exception rendering), or it succeeded with captured stdout. -/
inductive SyftOutcome where
  | missing : SyftOutcome
  | failed : String → String → String → SyftOutcome
  | succeeded : String → SyftOutcome

/-- Errors main can raise before reaching write_text: SystemExit from
run_syft, or the json.loads decode error. -/
inductive SbomError where
  | systemExit : String → SbomError
  | jsonDecode : SbomError

/-- run_syft from scripts/generate_sbom.py: SystemExit with the install hint
when the binary is missing; SystemExit with stderr (falling back to stdout,
then the exception text) when the command fails; stdout on success. -/
def run_syft : SyftOutcome → Except SbomError String
  | .missing =>
      .error (.systemExit
        "syft CLI not found. Install syft or set SYFT_CMD to an alternative binary.")
  | .failed stderrText stdoutText excText =>
      .error (.systemExit ("syft command failed: " ++
        (if stderrText.trim ≠ "" then stderrText.trim
         else if stdoutText.trim ≠ "" then stdoutText.trim
         else excText)))
  | .succeeded out => .ok out

/-- main from scripts/generate_sbom.py, parameterized by the json.loads
validity oracle: pick the output path (argv[1], default sbom.json), run
syft, validate the content, and only then perform the single write of the
content plus a trailing newline. An error value means main raised before
write_text was reached, leaving the output file unchanged. -/
def sbomMain (loads : String → Bool) (res : SyftOutcome) (argv : List String) :
    Except SbomError (String × String) :=
  let output := (argv.get? 1).getD "sbom.json"
  match run_syft res with
  | .error e => .error e
  | .ok content =>
      if loads content then .ok (output, content ++ "\n") else .error .jsonDecode

end SbomGen

open OpenapiGen

/-- C1: every row of the spec's HTTP-surface table for the auth endpoints is
present in the document built by build_spec — path, method, stated auth mode
(bearer optional on key creation, bearer required elsewhere), stated success
status, and every stated error status. -/
theorem auth_endpoints_match_surface_table : authSurfaceOk = true := by rfl

/-- C2: in the build_spec document the KeyInfo schema has no token property
(so the 200 response of GET /api/v1/auth/keys, an array of KeyInfo, never
exposes a raw token), while IssuedKeyResponse and RotatedKeyResponse both
declare and require token: the raw token appears exactly at creation and
rotation responses. -/
theorem raw_token_only_in_issue_and_rotate_responses : tokenExposureOk = true := by rfl

/-- C3 (failing input): the canonical RotatedKeyResponse example emitted by
build_spec violates scope immutability — the successor record carries scope
admin while the predecessor record carries scope namespace demo, so
info.scope differs from previous.scope even though info.rotated_from does
equal previous.id. -/
theorem rotated_key_example_changes_scope :
    ((rotated_key_example.getKeyD "info").getKeyD "scope").getKey "type"
      = some (.str "admin")
    ∧ ((rotated_key_example.getKeyD "previous").getKeyD "scope").getKey "type"
      = some (.str "namespace")
    ∧ (rotated_key_example.getKeyD "info").getKey "rotated_from"
      = (rotated_key_example.getKeyD "previous").getKey "id"
    ∧ (((rotated_key_example.getKeyD "info").getKeyD "scope")
        == ((rotated_key_example.getKeyD "previous").getKeyD "scope")) = false :=
  ⟨rfl, rfl, rfl, rfl⟩

/-- C4: the rotation-webhook intake operation of build_spec requires the
X-Cave-Webhook-Signature header (documented as the HMAC computed with the
out-of-band secret CAVE_ROTATION_WEBHOOK_SECRET), succeeds with 204, and its
declared client-error responses are exactly 401 and 403 — verification
failure is never mapped to 500, whose declared meaning is the generic
internal server error. -/
theorem webhook_intake_surface : webhookSurfaceOk = true := by rfl

/-- C5: the RotationWebhookPayload schema requires exactly the seven
data-model fields event, key_id, previous_key_id, rotated_at, scope, owner,
key_prefix, declares properties for exactly those fields, and its example
provides exactly those fields. -/
theorem rotation_webhook_payload_field_list : webhookPayloadFieldsOk = true := by rfl

/-- The OR of two naturals vanishes exactly when both do. -/
theorem lor_eq_zero_iff (x y : Nat) : x ||| y = 0 ↔ x = 0 ∧ y = 0 := by
  constructor
  · intro h
    constructor
    · apply Nat.eq_of_testBit_eq
      intro i
      have h2 := congrArg (fun n => n.testBit i) h
      simp only [Nat.testBit_or, Nat.zero_testBit, Bool.or_eq_false_iff] at h2
      simp [h2.1]
    · apply Nat.eq_of_testBit_eq
      intro i
      have h2 := congrArg (fun n => n.testBit i) h
      simp only [Nat.testBit_or, Nat.zero_testBit, Bool.or_eq_false_iff] at h2
      simp [h2.2]
  · rintro ⟨rfl, rfl⟩
    rfl

/-- The OR-accumulated bytewise XOR vanishes exactly when the accumulator is
zero and every pair agrees. -/
theorem foldl_or_xor_eq_zero (l : List (Nat × Nat)) (acc : Nat) :
    l.foldl (fun a p => a ||| (p.1 ^^^ p.2)) acc = 0 ↔
      acc = 0 ∧ ∀ p ∈ l, p.1 = p.2 := by
  induction l generalizing acc with
  | nil => simp
  | cons x xs ih =>
      simp only [List.foldl_cons, ih, List.mem_cons, lor_eq_zero_iff, Nat.xor_eq_zero]
      constructor
      · rintro ⟨⟨h1, h2⟩, h3⟩
        exact ⟨h1, fun p hp => hp.elim (fun hpe => hpe ▸ h2) (h3 p)⟩
      · rintro ⟨h1, h2⟩
        exact ⟨⟨h1, h2 x (.inl rfl)⟩, fun p hp => h2 p (.inr hp)⟩

/-- Equal-length lists whose zip is pointwise equal are equal. -/
theorem zip_pointwise_eq (a : List Nat) : ∀ b : List Nat, a.length = b.length →
    (∀ p ∈ a.zip b, p.1 = p.2) → a = b := by
  induction a with
  | nil =>
      intro b hl _
      cases b with
      | nil => rfl
      | cons y ys => simp at hl
  | cons x xs ih =>
      intro b hl hp
      cases b with
      | nil => simp at hl
      | cons y ys =>
          have h1 : x = y := hp (x, y) (by simp [List.zip_cons_cons])
          have h2 : xs = ys :=
            ih ys (by simpa using hl)
              (fun p hp2 => hp p (by simp [List.zip_cons_cons, hp2]))
          rw [h1, h2]

/-- Every pair in a list zipped with itself agrees. -/
theorem mem_zip_self (a : List Nat) : ∀ p ∈ a.zip a, p.1 = p.2 := by
  induction a with
  | nil => simp
  | cons x xs ih =>
      intro p hp
      rcases (by simpa [List.zip_cons_cons] using hp : p = (x, x) ∨ p ∈ xs.zip xs) with h | h
      · rw [h]
      · exact ih p h

/-- The constant-time comparison decides equality of byte strings. -/
theorem ctEq_eq_true_iff (a b : List Nat) : SpecModel.ctEq a b = true ↔ a = b := by
  unfold SpecModel.ctEq
  simp only [Bool.and_eq_true, beq_iff_eq]
  constructor
  · rintro ⟨h1, h2⟩
    exact zip_pointwise_eq a b h1 ((foldl_or_xor_eq_zero _ _).mp h2).2
  · rintro rfl
    exact ⟨rfl, (foldl_or_xor_eq_zero _ _).mpr ⟨rfl, mem_zip_self a⟩⟩

/-- HMAC-SHA-256 digests are 32 bytes long. -/
theorem hmac_length (key msg : List Nat) :
    (SpecModel.hmacSha256 key msg).length = 32 := rfl

/-- getD after set at the same valid index returns the new value. -/
theorem getD_set_self (l : List Nat) : ∀ n v : Nat, n < l.length →
    (l.set n v).getD n 0 = v := by
  induction l with
  | nil =>
      intro n v h
      simp at h
  | cons x xs ih =>
      intro n v h
      cases n with
      | zero => rfl
      | succ m =>
          simpa [List.set, List.getD_cons_succ] using ih m v (by simpa using h)

/-- Flipping an in-range bit changes the byte string. -/
theorem flipBit_ne (l : List Nat) (i : Nat) (h : i < 8 * l.length) :
    SpecModel.flipBit i l ≠ l := by
  intro heq
  have hn : i / 8 < l.length := by omega
  have h1 : (l.set (i / 8) (l.getD (i / 8) 0 ^^^ (1 <<< (i % 8)))).getD (i / 8) 0
      = l.getD (i / 8) 0 ^^^ (1 <<< (i % 8)) := getD_set_self l _ _ hn
  rw [SpecModel.flipBit] at heq
  rw [heq] at h1
  have h2 : l.getD (i / 8) 0 ^^^ (1 <<< (i % 8)) = l.getD (i / 8) 0 ^^^ 0 := by
    rw [Nat.xor_zero]
    exact h1.symm
  have h3 : (1 <<< (i % 8)) = 0 := Nat.xor_right_inj.mp h2
  have h4 : (0 : Nat) < 1 <<< (i % 8) := by
    rw [Nat.one_shiftLeft]
    exact Nat.pos_pow_of_pos _ (by norm_num)
  omega

/-- C6 (counterexample): the value with an empty namespace string is
admitted by the KeyScope and CreateKeyScope schemas, yet it is neither an
Admin scope without parameters nor a Namespace scope with a non-empty
namespace — the schemas do not uphold the non-emptiness invariant. -/
theorem keyscope_schema_admits_empty_namespace :
    keyScopeAdmits (.obj [("type", .str "namespace"), ("namespace", .str "")]) = true
    ∧ claimedScopeShape (.obj [("type", .str "namespace"), ("namespace", .str "")]) = false :=
  ⟨rfl, rfl⟩

/-- C6 (amended): the KeyScope and CreateKeyScope schemas of build_spec are
identical, and every value they admit is an object tagged admin, or an
object tagged namespace whose namespace member is a string — possibly the
empty one: the schemas do not enforce the data model's non-emptiness
invariant. -/
theorem keyscope_schemas_admit_any_string_namespace :
    schemaOf "KeyScope" = schemaOf "CreateKeyScope"
    ∧ ∀ j, keyScopeAdmits j = true →
        j.getKey "type" = some (.str "admin")
        ∨ (j.getKey "type" = some (.str "namespace")
            ∧ ∃ s, j.getKey "namespace" = some (.str s)) := by
  refine ⟨rfl, ?_⟩
  intro j h
  cases j with
  | null => simp [keyScopeAdmits, admitsAdminBranch, admitsNamespaceBranch] at h
  | bool b => simp [keyScopeAdmits, admitsAdminBranch, admitsNamespaceBranch] at h
  | num n => simp [keyScopeAdmits, admitsAdminBranch, admitsNamespaceBranch] at h
  | str s => simp [keyScopeAdmits, admitsAdminBranch, admitsNamespaceBranch] at h
  | arr xs => simp [keyScopeAdmits, admitsAdminBranch, admitsNamespaceBranch] at h
  | obj fs =>
      rcases hT : Json.lookupKey fs "type" with _ | vT
      · simp [keyScopeAdmits, admitsAdminBranch, admitsNamespaceBranch, hT] at h
      · rcases hN : Json.lookupKey fs "namespace" with _ | vN
        · cases vT with
          | str sv =>
              simp [keyScopeAdmits, admitsAdminBranch, admitsNamespaceBranch,
                hT, hN] at h
              left
              simp [Json.getKey, hT, h]
          | null =>
              simp [keyScopeAdmits, admitsAdminBranch, admitsNamespaceBranch, hT, hN] at h
          | bool b =>
              simp [keyScopeAdmits, admitsAdminBranch, admitsNamespaceBranch, hT, hN] at h
          | num n =>
              simp [keyScopeAdmits, admitsAdminBranch, admitsNamespaceBranch, hT, hN] at h
          | arr xs =>
              simp [keyScopeAdmits, admitsAdminBranch, admitsNamespaceBranch, hT, hN] at h
          | obj gs =>
              simp [keyScopeAdmits, admitsAdminBranch, admitsNamespaceBranch, hT, hN] at h
        · cases vT with
          | str sv =>
              cases vN with
              | str nv =>
                  simp only [keyScopeAdmits, admitsAdminBranch, admitsNamespaceBranch,
                    hT, hN, Option.isSome_some, Bool.true_and, Bool.and_true,
                    Bool.or_eq_true, Bool.and_eq_true, Bool.not_eq_true] at h
                  rcases h with ⟨h1, _⟩ | ⟨_, h2⟩
                  · left
                    have : sv = "admin" := by simpa using h1
                    simp [Json.getKey, hT, this]
                  · right
                    have : sv = "namespace" := by simpa using h2
                    exact ⟨by simp [Json.getKey, hT, this], nv, by simp [Json.getKey, hN]⟩
              | null =>
                  simp [keyScopeAdmits, admitsAdminBranch, admitsNamespaceBranch,
                    hT, hN] at h
                  left
                  simp [Json.getKey, hT, h]
              | bool b =>
                  simp [keyScopeAdmits, admitsAdminBranch, admitsNamespaceBranch,
                    hT, hN] at h
                  left
                  simp [Json.getKey, hT, h]
              | num n =>
                  simp [keyScopeAdmits, admitsAdminBranch, admitsNamespaceBranch,
                    hT, hN] at h
                  left
                  simp [Json.getKey, hT, h]
              | arr ys =>
                  simp [keyScopeAdmits, admitsAdminBranch, admitsNamespaceBranch,
                    hT, hN] at h
                  left
                  simp [Json.getKey, hT, h]
              | obj gs =>
                  simp [keyScopeAdmits, admitsAdminBranch, admitsNamespaceBranch,
                    hT, hN] at h
                  left
                  simp [Json.getKey, hT, h]
          | null =>
              simp [keyScopeAdmits, admitsAdminBranch, admitsNamespaceBranch, hT, hN] at h
          | bool b =>
              simp [keyScopeAdmits, admitsAdminBranch, admitsNamespaceBranch, hT, hN] at h
          | num n =>
              simp [keyScopeAdmits, admitsAdminBranch, admitsNamespaceBranch, hT, hN] at h
          | arr ys =>
              simp [keyScopeAdmits, admitsAdminBranch, admitsNamespaceBranch, hT, hN] at h
          | obj gs =>
              simp [keyScopeAdmits, admitsAdminBranch, admitsNamespaceBranch, hT, hN] at h

/-- Witness: the amended C6 statement instantiated at the admitted
empty-namespace value. -/
theorem keyscope_schemas_admit_any_string_namespace_witness :
    (Json.obj [("type", Json.str "namespace"), ("namespace", Json.str "")]).getKey "type"
        = some (.str "admin")
    ∨ ((Json.obj [("type", Json.str "namespace"), ("namespace", Json.str "")]).getKey "type"
        = some (.str "namespace")
        ∧ ∃ s, (Json.obj [("type", Json.str "namespace"),
            ("namespace", Json.str "")]).getKey "namespace" = some (.str s)) :=
  keyscope_schemas_admit_any_string_namespace.2
    (.obj [("type", .str "namespace"), ("namespace", .str "")]) rfl

/-- C7: for every secret and payload, verify accepts the signature computed
by sign over the canonical payload bytes; flipping any single bit of the
signature makes verify reject; and verify is a total boolean function that
accepts exactly the recomputed HMAC — so it returns false, never throws, on
any mismatch, malformed input included. -/
theorem webhook_sign_verify_properties :
    ∀ (secret : List Nat) (p : SpecModel.RotationPayload) (i : Nat)
      (payload_bytes signature : List Nat),
      SpecModel.verify secret (SpecModel.canonicalBytes p) (SpecModel.sign secret p) = true
      ∧ SpecModel.verify secret (SpecModel.canonicalBytes p)
          (SpecModel.flipBit (i % 256) (SpecModel.sign secret p)) = false
      ∧ (SpecModel.verify secret payload_bytes signature = true ↔
          signature = SpecModel.hmacSha256 secret payload_bytes) := by
  intro secret p i pb sg
  refine ⟨(ctEq_eq_true_iff _ _).mpr rfl, ?_, ?_⟩
  · have hlen : (SpecModel.sign secret p).length = 32 := hmac_length _ _
    have hne : SpecModel.flipBit (i % 256) (SpecModel.sign secret p) ≠ SpecModel.sign secret p :=
      flipBit_ne _ _ (by rw [hlen]; omega)
    cases hv : SpecModel.verify secret (SpecModel.canonicalBytes p)
        (SpecModel.flipBit (i % 256) (SpecModel.sign secret p)) with
    | false => rfl
    | true =>
        have heq : SpecModel.flipBit (i % 256) (SpecModel.sign secret p)
            = SpecModel.sign secret p := ((ctEq_eq_true_iff _ _).mp hv).symm
        exact absurd heq hne
  · constructor
    · intro hv
      exact ((ctEq_eq_true_iff _ _).mp hv).symm
    · rintro rfl
      exact (ctEq_eq_true_iff _ _).mpr rfl

/-- Finding an id after mark_revoked returns the found record with the
revoked flag set. -/
theorem find_by_id_mark_revoked (s : SpecModel.Store) (id : String) :
    SpecModel.find_by_id (SpecModel.mark_revoked s id) id
      = (SpecModel.find_by_id s id).map (fun r => { r with revoked := true }) := by
  unfold SpecModel.find_by_id SpecModel.mark_revoked
  induction s with
  | nil => rfl
  | cons a t ih =>
      rw [List.map_cons]
      by_cases ha : (a.id == id) = true
      · rw [if_pos ha, List.find?_cons, List.find?_cons]
        simp [ha]
      · have ha2 : (a.id == id) = false := by simpa using ha
        rw [if_neg ha, List.find?_cons, List.find?_cons]
        simp only [ha2]
        exact ih

/-- mark_revoked is idempotent. -/
theorem mark_revoked_idem (s : SpecModel.Store) (id : String) :
    SpecModel.mark_revoked (SpecModel.mark_revoked s id) id
      = SpecModel.mark_revoked s id := by
  unfold SpecModel.mark_revoked
  rw [List.map_map]
  apply List.map_congr_left
  intro r _
  by_cases hr : (r.id == id) = true
  · simp [Function.comp, hr]
  · simp [Function.comp, hr]

/-- C8: revoking an existing key twice succeeds both times and the second
call leaves the store in exactly the terminal state of the first —
revocation of an already-revoked key is a no-op, not an error. -/
theorem revoke_twice_idempotent :
    ∀ (s : SpecModel.Store) (id : String) (r : SpecModel.KeyRecord),
      SpecModel.find_by_id s id = some r →
      ∃ s1, SpecModel.revoke s id = .ok s1 ∧ SpecModel.revoke s1 id = .ok s1 := by
  intro s id r h
  refine ⟨SpecModel.mark_revoked s id, ?_, ?_⟩
  · simp [SpecModel.revoke, h]
  · have h2 := find_by_id_mark_revoked s id
    rw [h] at h2
    simp [SpecModel.revoke, h2, mark_revoked_idem]

/-- Witness: the revocation property instantiated on a one-record store. -/
theorem revoke_twice_idempotent_witness :
    ∃ s1, SpecModel.revoke SpecModel.sampleStore "k1" = .ok s1
      ∧ SpecModel.revoke s1 "k1" = .ok s1 :=
  revoke_twice_idempotent SpecModel.sampleStore "k1" SpecModel.sampleRecord rfl

/-- C9: build_spec is a closed value — it reads no input, environment,
clock, or randomness — so the bytes main writes are the same on every
invocation regardless of argv: json.dumps of build_spec with indent 2 plus
a trailing newline, at argv[1] (default openapi.yaml). -/
theorem openapi_output_deterministic :
    ∀ argv1 argv2 : List String,
      (mainWrites argv1).2 = (mainWrites argv2).2
      ∧ mainWrites argv1 = (outputPath argv1, dumps build_spec ++ "\n") :=
  fun _ _ => ⟨rfl, rfl⟩

/-- C10: generate_sbom's main reaches its single write only when the syft
subprocess succeeded and its stdout satisfies the json.loads validity
oracle; a missing binary or a failing command raises SystemExit with the
source's message, invalid JSON raises the decode error, and in every error
case no write happens, leaving the output file unchanged. -/
theorem sbom_main_writes_only_valid_syft_json :
    ∀ (loads : String → Bool) (argv : List String) (e o m s : String)
      (res : SbomGen.SyftOutcome),
      SbomGen.sbomMain loads .missing argv = .error (.systemExit
        "syft CLI not found. Install syft or set SYFT_CMD to an alternative binary.")
      ∧ SbomGen.sbomMain loads (.failed e o m) argv = .error (.systemExit
          ("syft command failed: " ++
            (if e.trim ≠ "" then e.trim else if o.trim ≠ "" then o.trim else m)))
      ∧ SbomGen.sbomMain loads (.succeeded s) argv =
          (if loads s then .ok ((argv.get? 1).getD "sbom.json", s ++ "\n")
           else .error .jsonDecode)
      ∧ ((∃ pc, SbomGen.sbomMain loads res argv = .ok pc) ↔
          (∃ s0, res = .succeeded s0 ∧ loads s0 = true)) := by
  intro loads argv e o m s res
  refine ⟨rfl, rfl, rfl, ?_⟩
  cases res with
  | missing => simp [SbomGen.sbomMain, SbomGen.run_syft]
  | failed e2 o2 m2 => simp [SbomGen.sbomMain, SbomGen.run_syft]
  | succeeded s2 =>
      cases hl : loads s2 with
      | true => simp [SbomGen.sbomMain, SbomGen.run_syft, hl]
      | false => simp [SbomGen.sbomMain, SbomGen.run_syft, hl]

end CaveDaemon
